import Mathlib

/-!
Shallow embedding of the Urbanlytic backend pipeline: three Express/Cloud-Run
HTTP services (data ingestor, user-report processor, Firestore event writer).
JavaScript/JSON values are modelled by the inductive `JsValue`; external
collaborators (Firestore `add`, Pub/Sub `publishMessage`, the base64+JSON
decode of push envelopes, wall-clock time) are modelled as explicit oracle
parameters of the handlers, success carried by `Except`/`Option`.
-/

namespace Urbanlytic

/-- Model of a JavaScript/JSON value as it flows through the pipeline.
Numbers are modelled as rationals (the claims never depend on float rounding);
`serverTimestamp` models the sentinel `admin.firestore.FieldValue.serverTimestamp()`;
`geopoint` models `admin.firestore.GeoPoint`; objects are association lists in
property order. -/
inductive JsValue where
  | undefined : JsValue
  | null : JsValue
  | bool (b : Bool) : JsValue
  | num (q : ℚ) : JsValue
  | str (s : String) : JsValue
  | arr (elems : List JsValue) : JsValue
  | obj (fields : List (String × JsValue)) : JsValue
  | serverTimestamp : JsValue
  | geopoint (latitude longitude : ℚ) : JsValue

/-- JavaScript truthiness of a modelled value (`undefined`, `null`, `false`,
`0`, and the empty string are falsy; every object is truthy). -/
def truthy : JsValue → Bool
  | .undefined => false
  | .null => false
  | .bool b => b
  | .num q => decide (q ≠ 0)
  | .str s => decide (s ≠ "")
  | .arr _ => true
  | .obj _ => true
  | .serverTimestamp => true
  | .geopoint _ _ => true

/-- First-match lookup in an association list of object fields. -/
def getField : List (String × JsValue) → String → Option JsValue
  | [], _ => none
  | (k, v) :: rest, key => if k = key then some v else getField rest key

/-- JavaScript property assignment on an object's field list: overwrites the
existing entry in place, else appends at the end (JS insertion order). -/
def setField : List (String × JsValue) → String → JsValue → List (String × JsValue)
  | [], key, v => [(key, v)]
  | (k, w) :: rest, key, v =>
      if k = key then (k, v) :: rest else (k, w) :: setField rest key v

/-- JavaScript property read `v[k]`: `undefined` on absent properties and on
non-objects (the handlers only ever read properties of values already checked
truthy, or behind `&&` short circuits, so the throwing cases of JS never arise
where this is used — except where a handler is modelled as throwing). -/
def getProp : JsValue → String → JsValue
  | .obj fields, k => (getField fields k).getD .undefined
  | .geopoint lat lng, k =>
      if k = "latitude" then .num lat
      else if k = "longitude" then .num lng
      else .undefined
  | _, _ => .undefined

/-- JavaScript property write `v[k] = x`: updates objects, is a silent no-op on
primitives (sloppy mode); only ever applied to validated (object) bodies. -/
def setProp (v : JsValue) (k : String) (x : JsValue) : JsValue :=
  match v with
  | .obj fields => .obj (setField fields k x)
  | other => other

/-- Whether a value has an own property named `k` (objects only; used to state
frame conditions about which fields exist). -/
def hasProp (v : JsValue) (k : String) : Bool :=
  match v with
  | .obj fields => (getField fields k).isSome
  | _ => false

/-- Own enumerable properties contributed by object spread `{...v}`: an
object's fields; index properties for arrays and strings; nothing for
primitives, `null` and `undefined`. -/
def objectSpread : JsValue → List (String × JsValue)
  | .obj fields => fields
  | .arr elems => elems.enum.map fun p => (toString p.1, p.2)
  | .str s => s.data.enum.map fun p => (toString p.1, .str (String.mk [p.2]))
  | _ => []

/-- Rest element of `const { location, ...restOfData } = v`: the spread of `v`
without the extracted key. -/
def restWithout (v : JsValue) (k : String) : List (String × JsValue) :=
  (objectSpread v).filter fun kv => kv.1 ≠ k

/-! ## Data Ingestor service (`app.post('/ingest')`)

Firestore `rawReports.add` and Pub/Sub `publishMessage` are oracles: `.ok id`
models a successful call returning the store-assigned document id / message id,
`.error msg` models the call throwing with `error.message = msg` (caught by the
single `try/catch` of the handler). `nowIso` models `new Date().toISOString()`. -/

/-- External state the ingestor acts on: the `rawReports` Firestore collection
(document id paired with document) and the `raw-user-reports` Pub/Sub topic. -/
structure IngestState where
  rawReports : List (String × JsValue)
  publishedRaw : List JsValue

/-- Outcome of one ingestor invocation: HTTP status, JSON response body, and
the post state of the external collaborators. -/
structure IngestResult where
  status : Nat
  body : JsValue
  state : IngestState

/-- Required-field validation of the ingestor, line for line the negation of
`!incidentData || !incidentData.description || !incidentData.location || !incidentData.reportedBy`. -/
def ingestValid (incidentData : JsValue) : Bool :=
  truthy incidentData && truthy (getProp incidentData "description")
    && truthy (getProp incidentData "location") && truthy (getProp incidentData "reportedBy")

/-- The ingestor's `POST /ingest` handler. -/
def ingestHandler (addResult pubResult : Except String String) (nowIso : String)
    (reqBody : JsValue) (st : IngestState) : IngestResult :=
  let incidentData := reqBody
  if ingestValid incidentData then
    let incidentData := setProp incidentData "ingestedAt" .serverTimestamp
    let incidentData := setProp incidentData "status" (.str "raw_ingested")
    match addResult with
    | .error emsg =>
        { status := 500
          body := .obj [("error", .str ("Internal Server Error: Failed to ingest incident. Details: " ++ emsg))]
          state := st }
    | .ok firestoreDocId =>
        let st := { st with rawReports := st.rawReports ++ [(firestoreDocId, incidentData)] }
        let dataToPublish := JsValue.obj (setField (objectSpread incidentData) "firestoreDocId" (.str firestoreDocId))
        match pubResult with
        | .error emsg =>
            { status := 500
              body := .obj [("error", .str ("Internal Server Error: Failed to ingest incident. Details: " ++ emsg))]
              state := st }
        | .ok messageId =>
            { status := 200
              body := .obj [("message", .str "Incident received, stored, and queued for processing."),
                            ("messageId", .str messageId),
                            ("firestoreDocId", .str firestoreDocId),
                            ("receivedTimestamp", .str nowIso)]
              state := { st with publishedRaw := st.publishedRaw ++ [dataToPublish] } }
  else
    { status := 400
      body := .obj [("error", .str "Bad Request: Missing required incident data (description, location, or reportedBy).")]
      state := st }

/-! ## User Report Processing service (`app.post('/')`)

The base64 decode plus `JSON.parse` of `req.body.message.data` is modelled by
an oracle function `decode`; `none` models the `try` block throwing. -/

/-- How an invocation ends: an HTTP reply, or an exception escaping the handler
(property access such as `.substring` on a value of the wrong type). -/
inductive HandlerResponse where
  | reply (status : Nat) (body : JsValue) : HandlerResponse
  | thrown : HandlerResponse

/-- HTTP status of a response, `none` when the handler threw instead. -/
def statusOf : HandlerResponse → Option Nat
  | .reply s _ => some s
  | .thrown => none

/-- The `processed-events` Pub/Sub topic the processor publishes to. -/
structure ProcessorState where
  publishedProcessed : List JsValue

/-- Outcome of one processor invocation. -/
structure ProcessorResult where
  response : HandlerResponse
  state : ProcessorState

/-- The push-envelope check shared by processor and writer, line for line the
negation of `!req.body || !req.body.message || !req.body.message.data`. -/
def envelopeValid (reqBody : JsValue) : Bool :=
  truthy reqBody && truthy (getProp reqBody "message")
    && truthy (getProp (getProp reqBody "message") "data")

/-- Placeholder impact map used when `incidentData.predictedImpact` is falsy. -/
def defaultPredictedImpact : JsValue :=
  .obj [("duration", .str "unknown"),
        ("affectedCommuters", .num 0),
        ("spreadDirection", .str "N/A")]

/-- The `summary` slot of the processed incident:
`` incidentData.description ? `Incident: ${incidentData.description.substring(0, Math.min(incidentData.description.length, 100))}...` : 'Incident reported.' ``.
`none` models `.substring` throwing on a truthy non-string `description`. -/
def summaryValue (description : JsValue) : Option JsValue :=
  if truthy description then
    match description with
    | .str s => some (.str ("Incident: " ++ String.mk (s.data.take (min s.length 100)) ++ "..."))
    | _ => none
  else
    some (.str "Incident reported.")

/-- The `processedIncident` object literal built by the processor from the
decoded message: spread of the input, then six property writes in source
order. `none` models the literal throwing (property access on `null` or
`undefined` input, or `.substring` on a truthy non-string description). -/
def processedIncident (incidentData : JsValue) : Option JsValue :=
  match incidentData with
  | .null => none
  | .undefined => none
  | _ =>
    match summaryValue (getProp incidentData "description") with
    | none => none
    | some summary =>
        some (.obj (setField (setField (setField (setField (setField (setField
          (objectSpread incidentData)
          "status" (.str "processed"))
          "processedTimestamp" .serverTimestamp)
          "eventType" (if truthy (getProp incidentData "type") then getProp incidentData "type"
                       else .str "general_incident"))
          "summary" summary)
          "predictedImpact" (if truthy (getProp incidentData "predictedImpact")
                             then getProp incidentData "predictedImpact"
                             else defaultPredictedImpact))
          "agentResponsible" (.str "User Report Processing (Cloud Run Placeholder)")))

/-- The processor's `POST /` handler. -/
def processorHandler (decode : JsValue → Option JsValue) (pubResult : Except String String)
    (reqBody : JsValue) (st : ProcessorState) : ProcessorResult :=
  if envelopeValid reqBody then
    match decode (getProp (getProp reqBody "message") "data") with
    | none => { response := .reply 400 (.str "Bad Request: Could not decode or parse message data."), state := st }
    | some incidentData =>
        match processedIncident incidentData with
        | none => { response := .thrown, state := st }
        | some processed =>
            match pubResult with
            | .error _ =>
                { response := .reply 500 (.str "Internal Server Error: Failed to publish processed message.")
                  state := st }
            | .ok _messageId =>
                { response := .reply 200 (.str "Message processed and published.")
                  state := { st with publishedProcessed := st.publishedProcessed ++ [processed] } }
  else
    { response := .reply 400 (.str "Bad Request: Invalid Pub/Sub message format."), state := st }

/-! ## Firestore Event Writer service (`app.post('/')`) -/

/-- The `events` Firestore collection the writer appends to. -/
structure WriterState where
  events : List JsValue

/-- Outcome of one writer invocation. -/
structure WriterResult where
  response : HandlerResponse
  state : WriterState

/-- Whether a modelled value is a JS number (the `typeof x === 'number'` test). -/
def isNum : JsValue → Bool
  | .num _ => true
  | _ => false

/-- The call `new admin.firestore.GeoPoint(lat, lng)`: the firebase-admin
constructor validates its arguments and throws (`none`) when the latitude is
outside [-90, 90] or the longitude is outside [-180, 180]; in the writer this
call sits outside both `try` blocks, so such a throw escapes the handler. -/
def geoPointCtor (lat lng : ℚ) : Option JsValue :=
  if -90 ≤ lat ∧ lat ≤ 90 ∧ -180 ≤ lng ∧ lng ≤ 180 then some (.geopoint lat lng) else none

/-- The `firestoreLocation` variable: `null` unless
`location && typeof location.latitude === 'number' && typeof location.longitude === 'number'`,
in which case `new admin.firestore.GeoPoint(location.latitude, location.longitude)`,
whose range validation can throw (`none`). -/
def firestoreLocationOf (location : JsValue) : Option JsValue :=
  if truthy location then
    match getProp location "latitude", getProp location "longitude" with
    | .num lat, .num lng => geoPointCtor lat lng
    | _, _ => some .null
  else some .null

/-- The `dataToSave` object built by the writer from the decoded event:
`{ ...restOfData, location: firestoreLocation || (location || null), firestoreCreatedAt: serverTimestamp }`.
`none` models a throw escaping the handler: the destructuring
`const { location, ...restOfData } = eventData` throwing on `null`/`undefined`,
or the GeoPoint constructor throwing on out-of-range coordinates. -/
def writerDataToSave (eventData : JsValue) : Option JsValue :=
  match eventData with
  | .null => none
  | .undefined => none
  | _ =>
    let location := getProp eventData "location"
    let restOfData := restWithout eventData "location"
    match firestoreLocationOf location with
    | none => none
    | some firestoreLocation =>
        some (.obj (setField (setField restOfData
          "location" (if truthy firestoreLocation then firestoreLocation
                      else if truthy location then location else .null))
          "firestoreCreatedAt" .serverTimestamp))

/-- The writer's `POST /` handler; `addResult` is the `events.add` oracle. -/
def writerHandler (decode : JsValue → Option JsValue) (addResult : Except String String)
    (reqBody : JsValue) (st : WriterState) : WriterResult :=
  if envelopeValid reqBody then
    match decode (getProp (getProp reqBody "message") "data") with
    | none => { response := .reply 400 (.str "Bad Request: Could not decode or parse message data."), state := st }
    | some eventData =>
        match writerDataToSave eventData with
        | none => { response := .thrown, state := st }
        | some dataToSave =>
            match addResult with
            | .error _ =>
                { response := .reply 500 (.str "Internal Server Error: Failed to write event to Firestore.")
                  state := st }
            | .ok _docId =>
                { response := .reply 200 (.str "Event written to Firestore.")
                  state := { st with events := st.events ++ [dataToSave] } }
  else
    { response := .reply 400 (.str "Bad Request: Invalid Pub/Sub message format."), state := st }

/-! ## Ports (`const port = process.env.PORT || 8080;` in each service) -/

/-- Port resolution of the ingestor (`src/unnamed/part_001`). -/
def ingestorPort (envPORT : JsValue) : JsValue :=
  if truthy envPORT then envPORT else .num 8080

/-- Port resolution of the processor (`User_Report_Processing_Function/index.js`). -/
def processorPort (envPORT : JsValue) : JsValue :=
  if truthy envPORT then envPORT else .num 8080

/-- Port resolution of the writer (`src/unnamed/part_000`). -/
def writerPort (envPORT : JsValue) : JsValue :=
  if truthy envPORT then envPORT else .num 8080

/-- The raw report after the ingestor's two property writes
`incidentData.ingestedAt = serverTimestamp(); incidentData.status = 'raw_ingested'`. -/
def storedRecord (fields : List (String × JsValue)) : JsValue :=
  setProp (setProp (.obj fields) "ingestedAt" .serverTimestamp) "status" (.str "raw_ingested")

/-- A concrete 101-character description, used to exercise the truncation path
of the processor's `summary` derivation. -/
def longDescription : String :=
  "aaaaaaaaaaaaaaaaaaaaaaaaaaaaaaaaaaaaaaaaaaaaaaaaaaaaaaaaaaaaaaaaaaaaaaaaaaaaaaaaaaaaaaaaaaaaaaaaaaaaa"

/-- A decode oracle that fails on every payload: models
`JSON.parse(Buffer.from(data, 'base64').toString('utf8'))` throwing because the
carried bytes are not JSON. -/
def noDecode : JsValue → Option JsValue := fun _ => none

/-! ## Association-list lemmas -/

theorem getField_setField_self : ∀ (l : List (String × JsValue)) (k : String) (v : JsValue),
    getField (setField l k v) k = some v
  | [], k, v => by simp [setField, getField]
  | (a, w) :: rest, k, v => by
      by_cases h : a = k
      · simp [setField, getField, h]
      · simp [setField, getField, h, getField_setField_self rest k v]

theorem getField_setField_ne : ∀ (l : List (String × JsValue)) (k k' : String) (v : JsValue),
    k ≠ k' → getField (setField l k v) k' = getField l k'
  | [], k, k', v, hne => by simp [setField, getField, hne]
  | (a, w) :: rest, k, k', v, hne => by
      by_cases h : a = k
      · subst h
        simp [setField, getField, hne]
      · by_cases h2 : a = k'
        · simp [setField, getField, h, h2, Ne.symm hne]
        · simp [setField, getField, h, h2, getField_setField_ne rest k k' v hne]

theorem getProp_obj (fields : List (String × JsValue)) (k : String) :
    getProp (.obj fields) k = (getField fields k).getD .undefined := rfl

theorem hasProp_obj (fields : List (String × JsValue)) (k : String) :
    hasProp (.obj fields) k = (getField fields k).isSome := rfl

/-! ## Claim theorems -/

/-- C9: each of the three services listens on the port given by the PORT
environment variable (a non-empty string), and on port 8080 when that variable
is unset. -/
theorem all_services_port_default_C9 (s : String) (hs : s ≠ "") :
    ingestorPort (.str s) = .str s ∧ processorPort (.str s) = .str s ∧
    writerPort (.str s) = .str s ∧ ingestorPort .undefined = .num 8080 ∧
    processorPort .undefined = .num 8080 ∧ writerPort .undefined = .num 8080 := by
  simp [ingestorPort, processorPort, writerPort, truthy, hs]

/-- C9 witness: concrete evaluation at PORT set to "3000" and PORT unset. -/
theorem all_services_port_default_C9_witness :
    ("3000" : String) ≠ "" ∧
    (ingestorPort (.str "3000") = .str "3000" ∧ processorPort (.str "3000") = .str "3000" ∧
     writerPort (.str "3000") = .str "3000" ∧ ingestorPort .undefined = .num 8080 ∧
     processorPort .undefined = .num 8080 ∧ writerPort .undefined = .num 8080) :=
  ⟨by decide, all_services_port_default_C9 "3000" (by decide)⟩

/-- C10: the ingestor validates by JavaScript truthiness, not presence — the
handler responds 400 exactly when the truthiness check fails, a present but
falsy `description`/`location`/`reportedBy` (empty string, 0, false, null) is
rejected exactly like a missing one, and any truthy values, including an empty
object as `location`, pass validation. -/
theorem ingest_truthiness_validation_C10 (addResult pubResult : Except String String)
    (nowIso : String) (reqBody : JsValue) (st : IngestState) :
    ((ingestHandler addResult pubResult nowIso reqBody st).status = 400 ↔
      ingestValid reqBody = false) ∧
    ingestValid (.obj [("description", .str ""), ("location", .obj []), ("reportedBy", .str "u")]) = false ∧
    ingestValid (.obj [("description", .str "d"), ("location", .num 0), ("reportedBy", .str "u")]) = false ∧
    ingestValid (.obj [("description", .str "d"), ("location", .obj []), ("reportedBy", .bool false)]) = false ∧
    ingestValid (.obj [("description", .null), ("location", .obj []), ("reportedBy", .str "u")]) = false ∧
    ingestValid (.obj [("location", .obj []), ("reportedBy", .str "u")]) = false ∧
    ingestValid (.obj [("description", .str "d"), ("location", .obj []), ("reportedBy", .str "u")]) = true := by
  refine ⟨?_, by decide, by decide, by decide, by decide, by decide, by decide⟩
  by_cases hv : ingestValid reqBody
  · cases addResult <;> cases pubResult <;> simp [ingestHandler, hv]
  · have hv2 : ingestValid reqBody = false := by simpa using hv
    simp [ingestHandler, hv2]

/-- C3: a request whose body is absent or lacks `description`, `location` or
`reportedBy` gets a 400 response with an error object and causes no side
effects: the raw store and the topic are unchanged. -/
theorem ingest_missing_field_C3 (addResult pubResult : Except String String)
    (nowIso : String) (reqBody : JsValue) (st : IngestState)
    (h : reqBody = .undefined ∨ getProp reqBody "description" = .undefined ∨
         getProp reqBody "location" = .undefined ∨ getProp reqBody "reportedBy" = .undefined) :
    (ingestHandler addResult pubResult nowIso reqBody st).status = 400 ∧
    (ingestHandler addResult pubResult nowIso reqBody st).body
      = .obj [("error", .str "Bad Request: Missing required incident data (description, location, or reportedBy).")] ∧
    (ingestHandler addResult pubResult nowIso reqBody st).state = st := by
  have hv : ingestValid reqBody = false := by
    rcases h with h | h | h | h <;> simp [ingestValid, h, truthy]
  simp [ingestHandler, hv]

/-- C3 witness: a report missing all required fields, against a store and
topic holding one prior record each. -/
theorem ingest_missing_field_C3_witness :
    ((JsValue.obj [("foo", .str "bar")]) = .undefined ∨
     getProp (JsValue.obj [("foo", .str "bar")]) "description" = .undefined ∨
     getProp (JsValue.obj [("foo", .str "bar")]) "location" = .undefined ∨
     getProp (JsValue.obj [("foo", .str "bar")]) "reportedBy" = .undefined) ∧
    ((ingestHandler (.ok "doc9") (.ok "msg9") "2026-01-01" (.obj [("foo", .str "bar")])
        ⟨[("d0", .null)], [.null]⟩).status = 400 ∧
     (ingestHandler (.ok "doc9") (.ok "msg9") "2026-01-01" (.obj [("foo", .str "bar")])
        ⟨[("d0", .null)], [.null]⟩).body
       = .obj [("error", .str "Bad Request: Missing required incident data (description, location, or reportedBy).")] ∧
     (ingestHandler (.ok "doc9") (.ok "msg9") "2026-01-01" (.obj [("foo", .str "bar")])
        ⟨[("d0", .null)], [.null]⟩).state = ⟨[("d0", .null)], [.null]⟩) :=
  ⟨Or.inr (Or.inl rfl),
   ingest_missing_field_C3 (.ok "doc9") (.ok "msg9") "2026-01-01" (.obj [("foo", .str "bar")])
     ⟨[("d0", .null)], [.null]⟩ (Or.inr (Or.inl rfl))⟩

/-- C2: on a body with truthy `description`, `location` and `reportedBy`, the
ingestor stamps the report with status `raw_ingested` and the server timestamp,
appends exactly one record holding that report to the raw store under the
store-assigned id, publishes exactly one message whose payload is the stored
record plus that id under `firestoreDocId`, and responds 200 with the message
id, the store id and a received timestamp. -/
theorem ingest_success_C2 (docId messageId nowIso : String)
    (fields : List (String × JsValue)) (st : IngestState)
    (hd : truthy (getProp (.obj fields) "description") = true)
    (hl : truthy (getProp (.obj fields) "location") = true)
    (hr : truthy (getProp (.obj fields) "reportedBy") = true) :
    ingestHandler (.ok docId) (.ok messageId) nowIso (.obj fields) st =
      { status := 200
        body := .obj [("message", .str "Incident received, stored, and queued for processing."),
                      ("messageId", .str messageId),
                      ("firestoreDocId", .str docId),
                      ("receivedTimestamp", .str nowIso)]
        state := { rawReports := st.rawReports ++ [(docId, storedRecord fields)]
                   publishedRaw := st.publishedRaw
                     ++ [.obj (setField (objectSpread (storedRecord fields)) "firestoreDocId" (.str docId))] } } ∧
    getProp (storedRecord fields) "status" = .str "raw_ingested" ∧
    getProp (storedRecord fields) "ingestedAt" = .serverTimestamp := by
  have hv : ingestValid (.obj fields) = true := by
    unfold ingestValid
    rw [hd, hl, hr]
    rfl
  refine ⟨by simp [ingestHandler, hv, storedRecord], ?_, ?_⟩
  · simp [storedRecord, setProp, getProp_obj, getField_setField_self]
  · simp [storedRecord, setProp, getProp_obj,
      getField_setField_ne _ "status" "ingestedAt" _ (by decide), getField_setField_self]

/-- C2 witness: a concrete valid report against empty store and topic ends in
a 200 response. -/
theorem ingest_success_C2_witness :
    truthy (getProp (.obj [("description", JsValue.str "d"), ("location", JsValue.obj []),
      ("reportedBy", JsValue.str "u")]) "description") = true ∧
    truthy (getProp (.obj [("description", JsValue.str "d"), ("location", JsValue.obj []),
      ("reportedBy", JsValue.str "u")]) "location") = true ∧
    truthy (getProp (.obj [("description", JsValue.str "d"), ("location", JsValue.obj []),
      ("reportedBy", JsValue.str "u")]) "reportedBy") = true ∧
    (ingestHandler (.ok "doc1") (.ok "msg1") "t0"
      (.obj [("description", JsValue.str "d"), ("location", JsValue.obj []),
        ("reportedBy", JsValue.str "u")]) ⟨[], []⟩).status = 200 :=
  ⟨by decide, by decide, by decide,
   by rw [(ingest_success_C2 "doc1" "msg1" "t0"
       [("description", JsValue.str "d"), ("location", JsValue.obj []),
        ("reportedBy", JsValue.str "u")] ⟨[], []⟩ (by decide) (by decide) (by decide)).1]⟩

/-- C6: when the store write succeeds but the publish throws, the ingestor
responds 500 while the already-persisted raw record remains in the store and
nothing was published — an orphaned raw record with no queued message. -/
theorem ingest_orphaned_record_C6 (docId emsg nowIso : String)
    (fields : List (String × JsValue)) (st : IngestState)
    (hd : truthy (getProp (.obj fields) "description") = true)
    (hl : truthy (getProp (.obj fields) "location") = true)
    (hr : truthy (getProp (.obj fields) "reportedBy") = true) :
    (ingestHandler (.ok docId) (.error emsg) nowIso (.obj fields) st).status = 500 ∧
    (ingestHandler (.ok docId) (.error emsg) nowIso (.obj fields) st).state.rawReports
      = st.rawReports ++ [(docId, storedRecord fields)] ∧
    (ingestHandler (.ok docId) (.error emsg) nowIso (.obj fields) st).state.publishedRaw
      = st.publishedRaw := by
  have hv : ingestValid (.obj fields) = true := by
    unfold ingestValid
    rw [hd, hl, hr]
    rfl
  simp [ingestHandler, hv, storedRecord]

/-- C6 witness: a concrete valid report whose publish fails leaves exactly the
stored record behind and an empty topic. -/
theorem ingest_orphaned_record_C6_witness :
    truthy (getProp (.obj [("description", JsValue.str "d"), ("location", JsValue.obj []),
      ("reportedBy", JsValue.str "u")]) "description") = true ∧
    truthy (getProp (.obj [("description", JsValue.str "d"), ("location", JsValue.obj []),
      ("reportedBy", JsValue.str "u")]) "location") = true ∧
    truthy (getProp (.obj [("description", JsValue.str "d"), ("location", JsValue.obj []),
      ("reportedBy", JsValue.str "u")]) "reportedBy") = true ∧
    ((ingestHandler (.ok "doc1") (.error "boom") "t0"
        (.obj [("description", JsValue.str "d"), ("location", JsValue.obj []),
          ("reportedBy", JsValue.str "u")]) ⟨[], []⟩).status = 500 ∧
     (ingestHandler (.ok "doc1") (.error "boom") "t0"
        (.obj [("description", JsValue.str "d"), ("location", JsValue.obj []),
          ("reportedBy", JsValue.str "u")]) ⟨[], []⟩).state.rawReports
       = [] ++ [("doc1", storedRecord [("description", JsValue.str "d"), ("location", JsValue.obj []),
          ("reportedBy", JsValue.str "u")])] ∧
     (ingestHandler (.ok "doc1") (.error "boom") "t0"
        (.obj [("description", JsValue.str "d"), ("location", JsValue.obj []),
          ("reportedBy", JsValue.str "u")]) ⟨[], []⟩).state.publishedRaw = []) :=
  ⟨by decide, by decide, by decide,
   ingest_orphaned_record_C6 "doc1" "boom" "t0"
     [("description", JsValue.str "d"), ("location", JsValue.obj []),
      ("reportedBy", JsValue.str "u")] ⟨[], []⟩ (by decide) (by decide) (by decide)⟩

/-- C4: on a push request whose envelope lacks a truthy `message.data` or whose
data fails the base64+JSON decode, both the processor and the writer respond
400 and perform no downstream effect: the processed-events topic and the
events collection are unchanged. -/
theorem push_decode_failure_C4 (decode : JsValue → Option JsValue)
    (pubResult addResult : Except String String) (reqBody : JsValue)
    (stP : ProcessorState) (stW : WriterState)
    (h : envelopeValid reqBody = false ∨
         decode (getProp (getProp reqBody "message") "data") = none) :
    statusOf (processorHandler decode pubResult reqBody stP).response = some 400 ∧
    (processorHandler decode pubResult reqBody stP).state = stP ∧
    statusOf (writerHandler decode addResult reqBody stW).response = some 400 ∧
    (writerHandler decode addResult reqBody stW).state = stW := by
  rcases h with h | h
  · simp [processorHandler, writerHandler, h, statusOf]
  · by_cases he : envelopeValid reqBody
    · simp [processorHandler, writerHandler, he, h, statusOf]
    · have he2 : envelopeValid reqBody = false := by simpa using he
      simp [processorHandler, writerHandler, he2, statusOf]

/-- C4 witness: a well-formed envelope whose data does not parse as JSON is
rejected by both services and leaves a one-element topic and store unchanged. -/
theorem push_decode_failure_C4_witness :
    (envelopeValid (.obj [("message", JsValue.obj [("data", JsValue.str "!!!")])]) = false ∨
     noDecode (getProp (getProp (.obj [("message", JsValue.obj [("data", JsValue.str "!!!")])]) "message") "data") = none) ∧
    (statusOf (processorHandler noDecode (.ok "m")
        (.obj [("message", JsValue.obj [("data", JsValue.str "!!!")])]) ⟨[.null]⟩).response = some 400 ∧
     (processorHandler noDecode (.ok "m")
        (.obj [("message", JsValue.obj [("data", JsValue.str "!!!")])]) ⟨[.null]⟩).state = ⟨[.null]⟩ ∧
     statusOf (writerHandler noDecode (.ok "d")
        (.obj [("message", JsValue.obj [("data", JsValue.str "!!!")])]) ⟨[.null]⟩).response = some 400 ∧
     (writerHandler noDecode (.ok "d")
        (.obj [("message", JsValue.obj [("data", JsValue.str "!!!")])]) ⟨[.null]⟩).state = ⟨[.null]⟩) :=
  ⟨Or.inr rfl,
   push_decode_failure_C4 noDecode (.ok "m") (.ok "d")
     (.obj [("message", JsValue.obj [("data", JsValue.str "!!!")])]) ⟨[.null]⟩ ⟨[.null]⟩
     (Or.inr rfl)⟩

/-- C1 counterexample: for a 101-character description the derived summary has
113 characters, because the code prefixes the truncation with "Incident: "
(10 characters), so it is not at most 103 characters as claimed. -/
theorem processor_summary_C1_cex :
    100 < longDescription.length ∧
    (processedIncident (.obj [("description", .str longDescription)])).map
        (fun out => match getProp out "summary" with | .str t => some t.length | _ => none)
      = some (some 113) ∧
    ¬ (113 ≤ 103) := by
  refine ⟨by decide, by decide, by decide⟩

/-- C1 (amended): for every processor input whose description is a truthy
(non-empty) string, the derived summary is "Incident: " followed by the first
min(length, 100) characters of the description and "..."; when the description
has more than 100 characters the summary is therefore exactly 113 characters
long (10 prefix + 100 + 3), and when it has at most 100 characters the summary
equals "Incident: " plus the whole description plus "...". -/
theorem processor_summary_C1 (incidentData : JsValue) (s : String)
    (hdesc : getProp incidentData "description" = .str s) (hne : s ≠ "") :
    (processedIncident incidentData).map (fun out => getProp out "summary")
      = some (.str ("Incident: " ++ String.mk (s.data.take (min s.length 100)) ++ "...")) ∧
    (s.length ≤ 100 → String.mk (s.data.take (min s.length 100)) = s) ∧
    (100 < s.length →
      ("Incident: " ++ String.mk (s.data.take (min s.length 100)) ++ "...").length = 113) := by
  refine ⟨?_, ?_, ?_⟩
  · cases incidentData <;> simp [getProp] at hdesc
    case obj fields =>
      simp [processedIncident, getProp_obj, hdesc, summaryValue, truthy, hne,
        getField_setField_ne, getField_setField_self]
  · intro hle
    rw [Nat.min_eq_left hle, show s.length = s.data.length from rfl,
      List.take_of_length_le (Nat.le_refl _)]
  · intro hgt
    have hdl : s.data.length = s.length := rfl
    have hpre : ("Incident: " : String).length = 10 := rfl
    have hell : ("..." : String).length = 3 := rfl
    simp [hpre, hell, hdl]
    omega

/-- C1 witness: a concrete five-character description yields the summary
"Incident: hello..." and the short-description equation applies. -/
theorem processor_summary_C1_witness :
    getProp (.obj [("description", JsValue.str "hello")]) "description" = .str "hello" ∧
    ("hello" : String) ≠ "" ∧
    ((processedIncident (.obj [("description", JsValue.str "hello")])).map
        (fun out => getProp out "summary")
      = some (.str ("Incident: " ++ String.mk ("hello".data.take (min "hello".length 100)) ++ "...")) ∧
    ("hello".length ≤ 100 → String.mk ("hello".data.take (min "hello".length 100)) = "hello") ∧
    (100 < "hello".length →
      ("Incident: " ++ String.mk ("hello".data.take (min "hello".length 100)) ++ "...").length = 113)) :=
  ⟨rfl, by decide,
   processor_summary_C1 (.obj [("description", JsValue.str "hello")]) "hello" rfl (by decide)⟩

/-- Reduction of `processedIncident` on an object input once the summary slot
is known to evaluate without throwing. -/
theorem processedIncident_obj (fields : List (String × JsValue)) (summary : JsValue)
    (hs : summaryValue (getProp (.obj fields) "description") = some summary) :
    processedIncident (.obj fields) = some (.obj (setField (setField (setField (setField (setField (setField
      fields
      "status" (.str "processed"))
      "processedTimestamp" .serverTimestamp)
      "eventType" (if truthy (getProp (.obj fields) "type") then getProp (.obj fields) "type"
                   else .str "general_incident"))
      "summary" summary)
      "predictedImpact" (if truthy (getProp (.obj fields) "predictedImpact")
                         then getProp (.obj fields) "predictedImpact"
                         else defaultPredictedImpact))
      "agentResponsible" (.str "User Report Processing (Cloud Run Placeholder)"))) := by
  simp [processedIncident, hs, objectSpread]

/-- C7: whenever the processor's transformation of an object input completes,
every field of the input other than the six derived ones keeps its value and
its presence unchanged in the output, and the six derived fields `status`,
`processedTimestamp`, `eventType`, `summary`, `predictedImpact` and
`agentResponsible` are all present (added or overwritten). -/
theorem processor_frame_C7 (fields : List (String × JsValue)) (out : JsValue) (k : String)
    (hout : processedIncident (.obj fields) = some out)
    (hk : k ∉ (["status", "processedTimestamp", "eventType", "summary",
                "predictedImpact", "agentResponsible"] : List String)) :
    getProp out k = getProp (.obj fields) k ∧
    hasProp out k = hasProp (.obj fields) k ∧
    hasProp out "status" = true ∧ hasProp out "processedTimestamp" = true ∧
    hasProp out "eventType" = true ∧ hasProp out "summary" = true ∧
    hasProp out "predictedImpact" = true ∧ hasProp out "agentResponsible" = true := by
  cases hs : summaryValue (getProp (.obj fields) "description") with
  | none => simp [processedIncident, hs] at hout
  | some summary =>
      rw [processedIncident_obj fields summary hs] at hout
      rw [Option.some_inj] at hout
      subst hout
      simp only [List.mem_cons, List.not_mem_nil, or_false, not_or] at hk
      obtain ⟨h1, h2, h3, h4, h5, h6⟩ := hk
      refine ⟨?_, ?_, ?_, ?_, ?_, ?_, ?_, ?_⟩ <;>
        simp [getProp_obj, hasProp_obj, getField_setField_self,
          getField_setField_ne _ _ _ _ (Ne.symm h1), getField_setField_ne _ _ _ _ (Ne.symm h2),
          getField_setField_ne _ _ _ _ (Ne.symm h3), getField_setField_ne _ _ _ _ (Ne.symm h4),
          getField_setField_ne _ _ _ _ (Ne.symm h5), getField_setField_ne _ _ _ _ (Ne.symm h6),
          getField_setField_ne]

/-- C7 witness: a custom field `city` survives the transformation unchanged and
the six derived fields are present. -/
theorem processor_frame_C7_witness :
    processedIncident (.obj [("city", JsValue.str "NY"), ("description", JsValue.str "d")])
      = some (.obj [("city", JsValue.str "NY"), ("description", JsValue.str "d"),
          ("status", JsValue.str "processed"), ("processedTimestamp", JsValue.serverTimestamp),
          ("eventType", JsValue.str "general_incident"), ("summary", JsValue.str "Incident: d..."),
          ("predictedImpact", JsValue.obj [("duration", JsValue.str "unknown"),
            ("affectedCommuters", JsValue.num 0), ("spreadDirection", JsValue.str "N/A")]),
          ("agentResponsible", JsValue.str "User Report Processing (Cloud Run Placeholder)")]) ∧
    ("city" : String) ∉ (["status", "processedTimestamp", "eventType", "summary",
        "predictedImpact", "agentResponsible"] : List String) ∧
    (getProp (.obj [("city", JsValue.str "NY"), ("description", JsValue.str "d"),
          ("status", JsValue.str "processed"), ("processedTimestamp", JsValue.serverTimestamp),
          ("eventType", JsValue.str "general_incident"), ("summary", JsValue.str "Incident: d..."),
          ("predictedImpact", JsValue.obj [("duration", JsValue.str "unknown"),
            ("affectedCommuters", JsValue.num 0), ("spreadDirection", JsValue.str "N/A")]),
          ("agentResponsible", JsValue.str "User Report Processing (Cloud Run Placeholder)")]) "city"
       = getProp (.obj [("city", JsValue.str "NY"), ("description", JsValue.str "d")]) "city") :=
  ⟨rfl, by decide,
   (processor_frame_C7 [("city", JsValue.str "NY"), ("description", JsValue.str "d")]
     (.obj [("city", JsValue.str "NY"), ("description", JsValue.str "d"),
          ("status", JsValue.str "processed"), ("processedTimestamp", JsValue.serverTimestamp),
          ("eventType", JsValue.str "general_incident"), ("summary", JsValue.str "Incident: d..."),
          ("predictedImpact", JsValue.obj [("duration", JsValue.str "unknown"),
            ("affectedCommuters", JsValue.num 0), ("spreadDirection", JsValue.str "N/A")]),
          ("agentResponsible", JsValue.str "User Report Processing (Cloud Run Placeholder)")])
     "city" rfl (by decide)).1⟩

/-- C8 counterexample: with `type` present but equal to the empty string, the
output's `eventType` is the fallback "general_incident" and not the input's
`type`, so the claim's "when that field is present" reading fails. -/
theorem processor_defaults_C8_cex :
    getField [("type", JsValue.str "")] "type" = some (.str "") ∧
    (processedIncident (.obj [("type", JsValue.str "")])).map (fun out => getProp out "eventType")
      = some (.str "general_incident") ∧
    JsValue.str "general_incident" ≠ JsValue.str "" := by
  refine ⟨rfl, rfl, ?_⟩
  intro h
  injection h with h2
  exact absurd h2 (by decide)

/-- C8 (amended): whenever the processor's transformation of an object input
completes, the output's `eventType` is the input's `type` when that field is
present with a truthy value and "general_incident" otherwise, and the output's
`predictedImpact` is the input's `predictedImpact` when present with a truthy
value and otherwise the placeholder map
`{duration: "unknown", affectedCommuters: 0, spreadDirection: "N/A"}`. -/
theorem processor_defaults_C8 (fields : List (String × JsValue)) (out : JsValue)
    (hout : processedIncident (.obj fields) = some out) :
    getProp out "eventType"
      = (if truthy (getProp (.obj fields) "type") then getProp (.obj fields) "type"
         else .str "general_incident") ∧
    getProp out "predictedImpact"
      = (if truthy (getProp (.obj fields) "predictedImpact") then getProp (.obj fields) "predictedImpact"
         else defaultPredictedImpact) ∧
    defaultPredictedImpact = .obj [("duration", .str "unknown"),
      ("affectedCommuters", .num 0), ("spreadDirection", .str "N/A")] := by
  cases hs : summaryValue (getProp (.obj fields) "description") with
  | none => simp [processedIncident, hs] at hout
  | some summary =>
      rw [processedIncident_obj fields summary hs] at hout
      rw [Option.some_inj] at hout
      subst hout
      refine ⟨?_, ?_, rfl⟩ <;>
        simp [getProp_obj, getField_setField_self, getField_setField_ne]

/-- C8 witness: a truthy `type` of "fire" passes through as the `eventType` and
an absent `predictedImpact` becomes the placeholder map. -/
theorem processor_defaults_C8_witness :
    processedIncident (.obj [("type", JsValue.str "fire")])
      = some (.obj [("type", JsValue.str "fire"), ("status", JsValue.str "processed"),
          ("processedTimestamp", JsValue.serverTimestamp), ("eventType", JsValue.str "fire"),
          ("summary", JsValue.str "Incident reported."),
          ("predictedImpact", JsValue.obj [("duration", JsValue.str "unknown"),
            ("affectedCommuters", JsValue.num 0), ("spreadDirection", JsValue.str "N/A")]),
          ("agentResponsible", JsValue.str "User Report Processing (Cloud Run Placeholder)")]) ∧
    (getProp (.obj [("type", JsValue.str "fire"), ("status", JsValue.str "processed"),
          ("processedTimestamp", JsValue.serverTimestamp), ("eventType", JsValue.str "fire"),
          ("summary", JsValue.str "Incident reported."),
          ("predictedImpact", JsValue.obj [("duration", JsValue.str "unknown"),
            ("affectedCommuters", JsValue.num 0), ("spreadDirection", JsValue.str "N/A")]),
          ("agentResponsible", JsValue.str "User Report Processing (Cloud Run Placeholder)")]) "eventType"
       = (if truthy (getProp (.obj [("type", JsValue.str "fire")]) "type")
          then getProp (.obj [("type", JsValue.str "fire")]) "type"
          else .str "general_incident")) :=
  ⟨rfl,
   (processor_defaults_C8 [("type", JsValue.str "fire")]
     (.obj [("type", JsValue.str "fire"), ("status", JsValue.str "processed"),
          ("processedTimestamp", JsValue.serverTimestamp), ("eventType", JsValue.str "fire"),
          ("summary", JsValue.str "Incident reported."),
          ("predictedImpact", JsValue.obj [("duration", JsValue.str "unknown"),
            ("affectedCommuters", JsValue.num 0), ("spreadDirection", JsValue.str "N/A")]),
          ("agentResponsible", JsValue.str "User Report Processing (Cloud Run Placeholder)")])
     rfl).1⟩

/-- Reduction of `writerDataToSave` for any decoded event the destructuring
does not throw on and whose GeoPoint conversion does not throw. -/
theorem writerDataToSave_eq (eventData fl : JsValue)
    (hn : eventData ≠ .null) (hu : eventData ≠ .undefined)
    (hf : firestoreLocationOf (getProp eventData "location") = some fl) :
    writerDataToSave eventData = some (.obj (setField (setField (restWithout eventData "location")
      "location" (if truthy fl then fl
                  else if truthy (getProp eventData "location") then getProp eventData "location"
                  else .null))
      "firestoreCreatedAt" .serverTimestamp)) := by
  cases eventData <;> first | exact absurd rfl hn | exact absurd rfl hu |
    (simp only [writerDataToSave, hf])

/-- Reduction of `writerDataToSave` when the GeoPoint constructor throws: the
exception escapes the handler and no document to save is ever built. -/
theorem writerDataToSave_none (eventData : JsValue)
    (hn : eventData ≠ .null) (hu : eventData ≠ .undefined)
    (hf : firestoreLocationOf (getProp eventData "location") = none) :
    writerDataToSave eventData = none := by
  cases eventData <;> first | exact absurd rfl hn | exact absurd rfl hu |
    (simp only [writerDataToSave, hf])

/-- The GeoPoint conversion yields `null` (without calling the constructor)
whenever the source guard
`location && typeof location.latitude === 'number' && typeof location.longitude === 'number'`
fails. -/
theorem firestoreLocationOf_eq_null (loc : JsValue)
    (h : ¬ (truthy loc = true ∧ isNum (getProp loc "latitude") = true ∧
            isNum (getProp loc "longitude") = true)) :
    firestoreLocationOf loc = some .null := by
  by_cases ht : truthy loc
  · rw [firestoreLocationOf, if_pos ht]
    cases hA : getProp loc "latitude" <;> cases hB : getProp loc "longitude" <;>
      simp_all [isNum, geoPointCtor]
  · rw [firestoreLocationOf, if_neg ht]

/-- The GeoPoint conversion succeeds with the same coordinates when the guard
passes and both coordinates are within the constructor's accepted ranges. -/
theorem firestoreLocationOf_eq_geopoint (loc : JsValue) (lat lng : ℚ)
    (ht : truthy loc = true) (hla : getProp loc "latitude" = .num lat)
    (hlo : getProp loc "longitude" = .num lng)
    (hr : -90 ≤ lat ∧ lat ≤ 90 ∧ -180 ≤ lng ∧ lng ≤ 180) :
    firestoreLocationOf loc = some (.geopoint lat lng) := by
  rw [firestoreLocationOf, if_pos ht, hla, hlo]
  show geoPointCtor lat lng = some (.geopoint lat lng)
  rw [geoPointCtor, if_pos hr]

/-- The GeoPoint constructor throws when the guard passes but a coordinate is
out of range, so the conversion produces no value at all. -/
theorem firestoreLocationOf_throws (loc : JsValue) (lat lng : ℚ)
    (ht : truthy loc = true) (hla : getProp loc "latitude" = .num lat)
    (hlo : getProp loc "longitude" = .num lng)
    (hr : ¬ (-90 ≤ lat ∧ lat ≤ 90 ∧ -180 ≤ lng ∧ lng ≤ 180)) :
    firestoreLocationOf loc = none := by
  rw [firestoreLocationOf, if_pos ht, hla, hlo]
  show geoPointCtor lat lng = none
  rw [geoPointCtor, if_neg hr]

/-- C5 counterexample: a location that is present but falsy (`false`) is stored
as `null`, not as the original location value, because the source stores
`firestoreLocation || (location || null)` and `false || null` is `null`;
moreover a numeric but out-of-range latitude (1000) makes the GeoPoint
constructor throw so no document to save exists and the write is not attempted,
and a decoded `null` input makes the destructuring throw likewise. -/
theorem writer_location_C5_cex :
    getProp (JsValue.obj [("location", JsValue.bool false)]) "location" = JsValue.bool false ∧
    (writerDataToSave (.obj [("location", JsValue.bool false)])).map (fun d => getProp d "location")
      = some JsValue.null ∧
    JsValue.null ≠ JsValue.bool false ∧
    getProp (getProp (JsValue.obj [("location", JsValue.obj [("latitude", JsValue.num 1000),
        ("longitude", JsValue.num 0)])]) "location") "latitude" = JsValue.num 1000 ∧
    writerDataToSave (JsValue.obj [("location", JsValue.obj [("latitude", JsValue.num 1000),
        ("longitude", JsValue.num 0)])]) = none ∧
    writerDataToSave JsValue.null = none := by
  exact ⟨rfl, rfl, fun h => JsValue.noConfusion h, rfl, rfl, rfl⟩

/-- C5 (amended): for every decoded writer input other than `null`: when the
input's `location` is truthy with numeric `latitude` in [-90, 90] and numeric
`longitude` in [-180, 180], the document to save exists and its stored location
is a geospatial point with the same coordinates; when the `location` fails the
guard (falsy, or non-numeric coordinates), the document to save exists and its
stored location is the original `location` value when that value is truthy and
`null` when it is absent or falsy, the location handling never preventing the
write; but when the guard passes with a coordinate outside those ranges, the
GeoPoint constructor throws and no write is attempted. -/
theorem writer_location_C5 (eventData : JsValue) (lat lng : ℚ)
    (hn : eventData ≠ JsValue.null) (hu : eventData ≠ JsValue.undefined) :
    ((truthy (getProp eventData "location") = true ∧
      getProp (getProp eventData "location") "latitude" = .num lat ∧
      getProp (getProp eventData "location") "longitude" = .num lng ∧
      (-90 ≤ lat ∧ lat ≤ 90 ∧ -180 ≤ lng ∧ lng ≤ 180)) →
        (writerDataToSave eventData).map (fun d => getProp d "location")
          = some (.geopoint lat lng)) ∧
    (¬ (truthy (getProp eventData "location") = true ∧
        isNum (getProp (getProp eventData "location") "latitude") = true ∧
        isNum (getProp (getProp eventData "location") "longitude") = true) →
      (writerDataToSave eventData).map (fun d => getProp d "location")
        = some (if truthy (getProp eventData "location") then getProp eventData "location"
                else .null)) ∧
    ((truthy (getProp eventData "location") = true ∧
      getProp (getProp eventData "location") "latitude" = .num lat ∧
      getProp (getProp eventData "location") "longitude" = .num lng ∧
      ¬ (-90 ≤ lat ∧ lat ≤ 90 ∧ -180 ≤ lng ∧ lng ≤ 180)) →
        writerDataToSave eventData = none) := by
  refine ⟨?_, ?_, ?_⟩
  · rintro ⟨ht, hla, hlo, hr⟩
    rw [writerDataToSave_eq eventData (.geopoint lat lng) hn hu
      (firestoreLocationOf_eq_geopoint _ lat lng ht hla hlo hr)]
    simp [truthy, getProp_obj, getField_setField_self,
      getField_setField_ne _ _ _ _ (show ("firestoreCreatedAt" : String) ≠ "location" by decide)]
  · intro h
    rw [writerDataToSave_eq eventData .null hn hu (firestoreLocationOf_eq_null _ h)]
    simp [truthy, getProp_obj, getField_setField_self,
      getField_setField_ne _ _ _ _ (show ("firestoreCreatedAt" : String) ≠ "location" by decide)]
  · rintro ⟨ht, hla, hlo, hr⟩
    exact writerDataToSave_none eventData hn hu
      (firestoreLocationOf_throws _ lat lng ht hla hlo hr)

/-- C5 witness: a concrete event with in-range coordinates (40, -74) is stored
as the geospatial point with the same coordinates, so the write is attempted. -/
theorem writer_location_C5_witness :
    (JsValue.obj [("location", JsValue.obj [("latitude", JsValue.num 40),
        ("longitude", JsValue.num (-74))]), ("reportedBy", JsValue.str "user1")]) ≠ JsValue.null ∧
    (JsValue.obj [("location", JsValue.obj [("latitude", JsValue.num 40),
        ("longitude", JsValue.num (-74))]), ("reportedBy", JsValue.str "user1")]) ≠ JsValue.undefined ∧
    (writerDataToSave (JsValue.obj [("location", JsValue.obj [("latitude", JsValue.num 40),
        ("longitude", JsValue.num (-74))]), ("reportedBy", JsValue.str "user1")])).map
        (fun d => getProp d "location")
      = some (.geopoint 40 (-74)) :=
  ⟨fun h => JsValue.noConfusion h, fun h => JsValue.noConfusion h,
   (writer_location_C5 (JsValue.obj [("location", JsValue.obj [("latitude", JsValue.num 40),
        ("longitude", JsValue.num (-74))]), ("reportedBy", JsValue.str "user1")]) 40 (-74)
     (fun h => JsValue.noConfusion h) (fun h => JsValue.noConfusion h)).1
     ⟨rfl, rfl, rfl, by decide⟩⟩

end Urbanlytic
